import Mathlib

/-!
# Plank Trainer — interval phase controller, verified model

A shallow embedding of the workout interval timer of `src/App.jsx`
(the only stateful component of the repository), together with the
input-clamping configuration logic and the MM:SS display formatter.

The React state slices `phase`, `running`, `setNo`, `remain` become one
record `TimerState`; the `useMemo` configuration becomes `configOf`; the
1-second `setInterval` body becomes `tickOp`; the phase-transition
`useEffect` becomes `transition`; a full observable 1-second step
(decrement, then the transition effect that fires before the next tick)
is `secTick`.
-/

namespace PlankTrainer

/-- The four phases of the timer, `'idle' | 'work' | 'rest' | 'done'`. -/
inductive Phase where
  | idle
  | work
  | rest
  | done
deriving DecidableEq, Repr

/-- A workout configuration, as produced by the `config` useMemo:
`{ workSec, restSec, sets }` (the `label` field is display-only and omitted). -/
structure Config where
  workSec : Int
  restSec : Int
  sets : Int
deriving DecidableEq, Repr

/-- The timer state: the React state slices `phase`, `running`, `setNo`
(`currentSet`, 1-based), `remain` (`remainingSeconds`). -/
structure TimerState where
  phase : Phase
  running : Bool
  setNo : Int
  remain : Int
deriving DecidableEq, Repr

/-- The initial React state: `phase='idle'`, `running=false`, `setNo=1`, `remain=0`. -/
def init : TimerState := { phase := .idle, running := false, setNo := 1, remain := 0 }

/-- `resetAll`: sets `running=false`, `phase='idle'`, `setNo=1`, `remain=0`. -/
def resetAll (_s : TimerState) : TimerState :=
  { phase := .idle, running := false, setNo := 1, remain := 0 }

/-- `start`: sets `setNo=1`, `phase='work'`, `remain=config.workSec`, `running=true`
(the audio priming and beep are side effects outside the state machine). -/
def start (cfg : Config) (_s : TimerState) : TimerState :=
  { phase := .work, running := true, setNo := 1, remain := cfg.workSec }

/-- `stop`: `setRunning(false)` only. -/
def stop (s : TimerState) : TimerState := { s with running := false }

/-- Modelled from the spec: resuming after a pause, i.e. re-arming the 1 Hz
clock without calling `start()`. The source has no resume button; re-arming
the clock corresponds exactly to setting `running` back to `true`, which is
the condition the tick interval effect keys on. -/
def resume (s : TimerState) : TimerState := { s with running := true }

/-- The 1-second interval body: `setRemain((r) => r - 1)`.  The interval
exists only while `running` is true (the effect returns early and clears
the interval otherwise), so the decrement is guarded by `running`. -/
def tickOp (s : TimerState) : TimerState :=
  if s.running then { s with remain := s.remain - 1 } else s

/-- The phase-transition `useEffect` (`go`): a no-op unless `running`,
`phase ∉ {idle, done}` and `remain < 0`; otherwise

* `work` with `setNo >= config.sets`: `phase='done'`, `running=false`, `remain=0`;
* `work` otherwise: `phase='rest'`, `remain=config.restSec`;
* `rest`: `setNo+1`, `phase='work'`, `remain=config.workSec`. -/
def transition (cfg : Config) (s : TimerState) : TimerState :=
  if s.running = false then s
  else if s.phase = .idle ∨ s.phase = .done then s
  else if 0 ≤ s.remain then s
  else if s.phase = .work then
    if cfg.sets ≤ s.setNo then { s with phase := .done, running := false, remain := 0 }
    else { s with phase := .rest, remain := cfg.restSec }
  else if s.phase = .rest then
    { s with phase := .work, setNo := s.setNo + 1, remain := cfg.workSec }
  else s

/-- One observable 1-second step: the interval decrements `remain`, then the
transition effect runs (synchronously, before the next tick can fire). -/
def secTick (cfg : Config) (s : TimerState) : TimerState :=
  transition cfg (tickOp s)

/-- A configuration is valid when all three fields are at least 1
(`WorkoutConfig` of the spec; every configuration the source produces
satisfies this, see `configOf_ge_one`). -/
def validCfg (cfg : Config) : Prop :=
  1 ≤ cfg.workSec ∧ 1 ≤ cfg.restSec ∧ 1 ≤ cfg.sets

instance : DecidablePred validCfg := fun cfg => by
  unfold validCfg; infer_instance

/- ### Configuration clamping (`config` useMemo) -/

/-- The preset level selector: `'beginner' | 'intermediate' | 'advanced' | 'custom'`. -/
inductive Level where
  | beginner
  | intermediate
  | advanced
  | custom
deriving DecidableEq, Repr

/-- The `PRESETS` table (labels omitted): work/rest seconds and the fixed
3-set count for each level. -/
def PRESETS : Level → Config
  | .beginner => { workSec := 20, restSec := 30, sets := 3 }
  | .intermediate => { workSec := 45, restSec := 30, sets := 3 }
  | .advanced => { workSec := 75, restSec := 30, sets := 3 }
  | .custom => { workSec := 20, restSec := 30, sets := 3 }

/-- JavaScript `Number(x) || 1` on a raw duration input: `none` stands for a
non-numeric input (`Number` gives `NaN`, which is falsy), and a numeric `0`
is falsy as well; both fall back to `1`. Other numbers pass through. -/
def numOr1 : Option Int → Int
  | none => 1
  | some n => if n = 0 then 1 else n

/-- The `config` useMemo: presets pass through unchanged; the custom level
overrides the durations with `Math.max(1, Number(v) || 1)` while keeping
the base preset's 3-set count. -/
def configOf (level : Level) (customWork customRest : Option Int) : Config :=
  match level with
  | .custom =>
    { PRESETS .custom with
      workSec := max 1 (numOr1 customWork),
      restSec := max 1 (numOr1 customRest) }
  | l => PRESETS l

/- ### Display formatting (`formatMMSS`) -/

/-- JavaScript `sec | 0`: ToInt32, i.e. reduction modulo `2^32` into the
signed range `[-2^31, 2^31)` (for integral inputs). -/
def toInt32 (n : Int) : Int := (n + 2 ^ 31) % 2 ^ 32 - 2 ^ 31

/-- `String.padStart(2, '0')`: prepend zeros until the length is at least 2. -/
def padStart2 (str : String) : String :=
  if str.length < 2 then String.mk (List.replicate (2 - str.length) '0') ++ str else str

/-- `formatMMSS`: `s = Math.max(0, sec | 0)`, then zero-padded
`floor(s/60)` and `s % 60` joined by a colon.  After the `max` the value is
a natural number, so the remaining arithmetic is `Nat` division/modulus. -/
def formatMMSS (sec : Int) : String :=
  let s : Nat := (max 0 (toInt32 sec)).toNat
  let m := padStart2 (toString (s / 60))
  let ss := padStart2 (toString (s % 60))
  m ++ ":" ++ ss

/-- The rendering C10 claims, written from the claim's words: the
zero-padded MM:SS rendering of `max(0, sec)` with minutes `= floor/60` and
seconds `= mod 60` (no int32 wrap-around). -/
def claimedMMSS (sec : Int) : String :=
  let s : Nat := (max 0 sec).toNat
  padStart2 (toString (s / 60)) ++ ":" ++ padStart2 (toString (s % 60))

/- ### Posture-beep guard (`onResults`) -/

/-- The bad-posture beep decision of `onResults`, given the frame's
classification result `good`: the beep fires iff the posture is bad and
`phase === 'work' && running`. -/
def badPostureBeepFires (good : Bool) (s : TimerState) : Bool :=
  !good && (decide (s.phase = .work) && s.running)

/- ### Reachability (C7) -/

/-- States reachable from the initial React state by the controller's
operations: configuration change (which resets, via the level-change
effect), `start`, `stop`, `resetAll`, the tick decrement, and the
transition effect.  Every configuration in play is valid, as produced by
`configOf`. -/
inductive Reachable : Config → TimerState → Prop where
  | init (cfg : Config) (h : validCfg cfg) : Reachable cfg init
  | configure (cfg cfg' : Config) (s : TimerState) (h : Reachable cfg s)
      (h' : validCfg cfg') : Reachable cfg' (resetAll s)
  | start (cfg : Config) (s : TimerState) (h : Reachable cfg s) :
      Reachable cfg (start cfg s)
  | stop (cfg : Config) (s : TimerState) (h : Reachable cfg s) :
      Reachable cfg (stop s)
  | reset (cfg : Config) (s : TimerState) (h : Reachable cfg s) :
      Reachable cfg (resetAll s)
  | tick (cfg : Config) (s : TimerState) (h : Reachable cfg s) :
      Reachable cfg (tickOp s)
  | trans (cfg : Config) (s : TimerState) (h : Reachable cfg s) :
      Reachable cfg (transition cfg s)

/- ## Theorems -/

/-- C5: `reset()` from every state (hence from every reachable state)
produces exactly `{phase = Idle, currentSet = 1, remainingSeconds = 0,
running = false}`. -/
theorem resetAll_exact (s : TimerState) :
    resetAll s = { phase := .idle, running := false, setNo := 1, remain := 0 } := rfl

/-- C6: `stop()` sets `running = false` and leaves `phase`, `remain` and
`setNo` unchanged; re-arming the clock afterwards (resume, without calling
`start`) continues from the exact same remaining seconds, phase and set. -/
theorem stop_frame (s : TimerState) :
    (stop s).running = false ∧ (stop s).phase = s.phase ∧
      (stop s).remain = s.remain ∧ (stop s).setNo = s.setNo ∧
      (resume (stop s)).phase = s.phase ∧ (resume (stop s)).remain = s.remain ∧
      (resume (stop s)).setNo = s.setNo :=
  ⟨rfl, rfl, rfl, rfl, rfl, rfl, rfl⟩

/-- C2: when the transition fires (`remain < 0`, running) in `work` with
`setNo = cfg.sets`, the next state is `done` with `remain = 0`, `setNo`
unchanged and `running = false` (so `phase = done → running = false` holds
after the transition). -/
theorem transition_work_last (cfg : Config) (s : TimerState)
    (hrun : s.running = true) (hph : s.phase = .work) (hrem : s.remain < 0)
    (hset : s.setNo = cfg.sets) :
    transition cfg s = { s with phase := .done, running := false, remain := 0 } := by
  obtain ⟨ph, run, sn, r⟩ := s
  dsimp at hrun hph hrem hset
  subst hrun hph hset
  simp [transition, hrem.not_le]

/-- Witness for C2 at the concrete input `cfg = {2, 3, 1}`,
`s = {work, running, set 1, remain -1}`. -/
theorem transition_work_last_witness :
    transition { workSec := 2, restSec := 3, sets := 1 }
        { phase := .work, running := true, setNo := 1, remain := -1 } =
      { phase := .done, running := false, setNo := 1, remain := 0 } :=
  transition_work_last _ _ rfl rfl (by decide) rfl

/-- C3: when the transition fires (`remain < 0`, running) in `work` with
`setNo < cfg.sets`, the next state is `rest` with `remain = cfg.restSec`
and `setNo` unchanged (and `running` unchanged). -/
theorem transition_work_more (cfg : Config) (s : TimerState)
    (hrun : s.running = true) (hph : s.phase = .work) (hrem : s.remain < 0)
    (hset : s.setNo < cfg.sets) :
    transition cfg s = { s with phase := .rest, remain := cfg.restSec } := by
  obtain ⟨ph, run, sn, r⟩ := s
  dsimp at hrun hph hrem hset
  subst hrun hph
  simp [transition, hrem.not_le, hset.not_le]

/-- Witness for C3 at the concrete input `cfg = {2, 3, 3}`,
`s = {work, running, set 1, remain -1}`. -/
theorem transition_work_more_witness :
    transition { workSec := 2, restSec := 3, sets := 3 }
        { phase := .work, running := true, setNo := 1, remain := -1 } =
      { phase := .rest, running := true, setNo := 1, remain := 3 } :=
  transition_work_more _ _ rfl rfl (by decide) (by decide)

/-- C4: when the transition fires in `rest`, the next state is always
`work` with `remain = cfg.workSec` and `setNo` incremented; and whenever
`running` is false, the phase is `idle` or `done`, or `remain ≥ 0`, the
transition handler is a no-op. -/
theorem transition_rest_and_noop (cfg : Config) (s : TimerState) :
    (s.running = true → s.phase = .rest → s.remain < 0 →
      transition cfg s =
        { s with phase := .work, setNo := s.setNo + 1, remain := cfg.workSec }) ∧
    (s.running = false ∨ s.phase = .idle ∨ s.phase = .done ∨ 0 ≤ s.remain →
      transition cfg s = s) := by
  constructor
  · intro hrun hph hrem
    obtain ⟨ph, run, sn, r⟩ := s
    dsimp at hrun hph hrem
    subst hrun hph
    simp [transition, hrem.not_le]
  · intro h
    unfold transition
    rcases h with h | h | h | h <;> simp [h]

/-- Witness for C4: the rest branch at `cfg = {2, 3, 3}`,
`s = {rest, running, set 1, remain -1}`, and the no-op branch at an idle
state. -/
theorem transition_rest_and_noop_witness :
    transition { workSec := 2, restSec := 3, sets := 3 }
        { phase := .rest, running := true, setNo := 1, remain := -1 } =
      { phase := .work, running := true, setNo := 2, remain := 2 } ∧
    transition { workSec := 2, restSec := 3, sets := 3 }
        { phase := .idle, running := true, setNo := 1, remain := -1 } =
      { phase := .idle, running := true, setNo := 1, remain := -1 } :=
  ⟨(transition_rest_and_noop _ _).1 rfl rfl (by decide),
   (transition_rest_and_noop _ _).2 (Or.inr (Or.inl rfl))⟩

/-- C8: for every raw configuration input (any level, and any custom
duration inputs, including zero, negative or non-numeric), the produced
configuration has `workSec ≥ 1`, `restSec ≥ 1` and `sets ≥ 1`. -/
theorem configOf_ge_one (level : Level) (cw cr : Option Int) :
    1 ≤ (configOf level cw cr).workSec ∧ 1 ≤ (configOf level cw cr).restSec ∧
      1 ≤ (configOf level cw cr).sets := by
  cases level with
  | beginner => refine ⟨?_, ?_, ?_⟩ <;> norm_num [configOf, PRESETS]
  | intermediate => refine ⟨?_, ?_, ?_⟩ <;> norm_num [configOf, PRESETS]
  | advanced => refine ⟨?_, ?_, ?_⟩ <;> norm_num [configOf, PRESETS]
  | custom => exact ⟨le_max_left _ _, le_max_left _ _, by norm_num [configOf, PRESETS]⟩

/-- C9: the bad-posture beep fires only when `phase = work` and `running`. -/
theorem badBeep_only_work_running (good : Bool) (s : TimerState)
    (h : badPostureBeepFires good s = true) :
    s.phase = .work ∧ s.running = true := by
  simp only [badPostureBeepFires, Bool.and_eq_true, Bool.not_eq_true',
    decide_eq_true_eq] at h
  exact ⟨h.2.1, h.2.2⟩

/-- Witness for C9 at a bad frame in a running work state. -/
theorem badBeep_only_work_running_witness :
    ({ phase := .work, running := true, setNo := 1, remain := 5 } : TimerState).phase
        = .work ∧
      ({ phase := .work, running := true, setNo := 1, remain := 5 } : TimerState).running
        = true :=
  badBeep_only_work_running false _ (by decide)

/-- Counterexample for C10: the integer input `2^31` is wrapped by `sec | 0`
to `-2^31`, so the code renders `"00:00"`, while the claimed rendering of
`max(0, 2^31) = 2147483648` is `"35791394:08"`. -/
theorem formatMMSS_wrap_counterexample :
    formatMMSS (2 ^ 31) = "00:00" ∧ claimedMMSS (2 ^ 31) = "35791394:08" ∧
      formatMMSS (2 ^ 31) ≠ claimedMMSS (2 ^ 31) := by
  refine ⟨by decide, by decide, by decide⟩

/-- For inputs in the signed 32-bit range, `sec | 0` is the identity. -/
theorem toInt32_eq_self (n : Int) (h1 : -2 ^ 31 ≤ n) (h2 : n < 2 ^ 31) :
    toInt32 n = n := by
  unfold toInt32
  rw [Int.emod_eq_of_lt (by omega) (by omega)]
  omega

/-- C10 (amended): for every integer input in the signed 32-bit range
`[-2^31, 2^31)`, `formatMMSS sec` is the zero-padded MM:SS rendering of
`max(0, sec)`; in particular every negative such input (including the `-1`
transition sentinel) renders as `"00:00"`. -/
theorem formatMMSS_spec (sec : Int) (h1 : -2 ^ 31 ≤ sec) (h2 : sec < 2 ^ 31) :
    formatMMSS sec = claimedMMSS sec := by
  unfold formatMMSS claimedMMSS
  rw [toInt32_eq_self sec h1 h2]

/-- Witness for C10 (amended) at the `-1` transition sentinel. -/
theorem formatMMSS_spec_witness :
    formatMMSS (-1) = claimedMMSS (-1) ∧ formatMMSS (-1) = "00:00" :=
  ⟨formatMMSS_spec (-1) (by decide) (by decide), by decide⟩

/-- Counterexample for C1 (as stated): with the spec's own scenario config
`{work=20, rest=30, sets=3}` (valid, and `sets > 1`), after `start()` and
exactly `workSeconds = 20` one-second ticks the phase is still `work`
(remaining is 0, the transition has not fired), not `rest`. -/
theorem start_workSec_ticks_no_transition :
    ((secTick { workSec := 20, restSec := 30, sets := 3 })^[20]
        (start { workSec := 20, restSec := 30, sets := 3 } init)).phase = Phase.work ∧
      Phase.work ≠ Phase.rest := by
  refine ⟨by decide, by decide⟩

/-- While counting down in `work`, one observable second just decrements:
iterating the 1-second step `remain` times from a running work state ends
with `remain = 0` and everything else unchanged. -/
theorem secTick_iterate_countdown (cfg : Config) (n : Nat) (s : TimerState)
    (hph : s.phase = .work) (hrun : s.running = true) (hrem : s.remain = n) :
    (secTick cfg)^[n] s = { s with remain := 0 } := by
  induction n generalizing s with
  | zero =>
    obtain ⟨ph, run, sn, r⟩ := s
    dsimp at hph hrun hrem
    subst hph hrun hrem
    simp [Function.iterate_zero]
  | succ k ih =>
    obtain ⟨ph, run, sn, r⟩ := s
    dsimp at hph hrun hrem
    subst hph hrun hrem
    rw [Function.iterate_succ_apply]
    have h1 : secTick cfg ⟨.work, true, sn, ((k + 1 : Nat) : Int)⟩ =
        ⟨.work, true, sn, ((k : Nat) : Int)⟩ := by
      simp [secTick, tickOp, transition]
    rw [h1, ih _ rfl rfl rfl]

/-- C1 (amended): for every valid configuration, after `start()` it takes
exactly `workSeconds + 1` one-second ticks to transition out of `work`
(the display shows 0 for one full tick before the `-1` sentinel fires the
transition): to `done` if `totalSets = 1` and to `rest` if `totalSets > 1`. -/
theorem start_ticks_transition (cfg : Config) (s : TimerState) (h : validCfg cfg) :
    (cfg.sets = 1 →
      ((secTick cfg)^[cfg.workSec.toNat + 1] (start cfg s)).phase = Phase.done) ∧
    (1 < cfg.sets →
      ((secTick cfg)^[cfg.workSec.toNat + 1] (start cfg s)).phase = Phase.rest) := by
  obtain ⟨hw, hr, hs⟩ := h
  have hcast : ((cfg.workSec.toNat : Int)) = cfg.workSec := Int.toNat_of_nonneg (by omega)
  have hcd := secTick_iterate_countdown cfg cfg.workSec.toNat (start cfg s)
    rfl rfl (by simp [start, hcast])
  rw [Function.iterate_succ_apply', hcd]
  constructor
  · intro h1
    simp [start, secTick, tickOp, transition, h1]
  · intro h1
    have h2 : ¬ cfg.sets ≤ (1 : Int) := by omega
    simp [start, secTick, tickOp, transition, h2]

/-- Witness for C1 (amended) at the spec's scenario configuration
`{work=20, rest=30, sets=3}`: after 21 ticks the phase is `rest`. -/
theorem start_ticks_transition_witness :
    ((secTick { workSec := 20, restSec := 30, sets := 3 })^[21]
        (start { workSec := 20, restSec := 30, sets := 3 } init)).phase = Phase.rest :=
  (start_ticks_transition { workSec := 20, restSec := 30, sets := 3 } init
    (by refine ⟨by norm_num, by norm_num, by norm_num⟩)).2 (by norm_num)

/-- The inductive invariant for C7: the set counter is in `[1, sets]`, and
while resting there is still a set to go (which is what keeps the
rest-to-work increment inside the range). -/
def setInRange (cfg : Config) (s : TimerState) : Prop :=
  1 ≤ s.setNo ∧ s.setNo ≤ cfg.sets ∧ (s.phase = .rest → s.setNo < cfg.sets)

/-- Every reachable state carries a valid configuration and satisfies the
inductive invariant `setInRange`. -/
theorem reachable_validCfg_setInRange (cfg : Config) (s : TimerState)
    (h : Reachable cfg s) : validCfg cfg ∧ setInRange cfg s := by
  induction h with
  | init cfg hv =>
    refine ⟨hv, le_refl 1, hv.2.2, ?_⟩
    intro hph
    simp [init] at hph
  | configure cfg cfg' s hr hv ih =>
    refine ⟨hv, le_refl 1, hv.2.2, ?_⟩
    intro hph
    simp [resetAll] at hph
  | start cfg s hr ih =>
    refine ⟨ih.1, le_refl 1, ih.1.2.2, ?_⟩
    intro hph
    simp [start] at hph
  | stop cfg s hr ih =>
    exact ⟨ih.1, ih.2.1, ih.2.2.1, fun hph => ih.2.2.2 hph⟩
  | reset cfg s hr ih =>
    refine ⟨ih.1, le_refl 1, ih.1.2.2, ?_⟩
    intro hph
    simp [resetAll] at hph
  | tick cfg s hr ih =>
    obtain ⟨hv, h1, h2, h3⟩ := ih
    refine ⟨hv, ?_⟩
    unfold tickOp
    split
    · exact ⟨h1, h2, h3⟩
    · exact ⟨h1, h2, h3⟩
  | trans cfg s hr ih =>
    obtain ⟨hv, h1, h2, h3⟩ := ih
    refine ⟨hv, ?_⟩
    unfold transition
    split_ifs with g1 g2 g3 g4 g5 g6
    · exact ⟨h1, h2, h3⟩
    · exact ⟨h1, h2, h3⟩
    · exact ⟨h1, h2, h3⟩
    · refine ⟨h1, h2, ?_⟩
      intro hph
      simp at hph
    · refine ⟨h1, h2, ?_⟩
      intro _
      dsimp only
      omega
    · refine ⟨?_, ?_, ?_⟩
      · dsimp only
        omega
      · dsimp only
        have := h3 g6
        omega
      · intro hph
        simp at hph
    · exact ⟨h1, h2, h3⟩

/-- C7: in every state reachable from the initial state via
configure/start/stop/reset/tick/transition, the set counter stays in
`[1, totalSets]`. -/
theorem reachable_setNo_in_range (cfg : Config) (s : TimerState)
    (h : Reachable cfg s) : 1 ≤ s.setNo ∧ s.setNo ≤ cfg.sets := by
  have hinv := reachable_validCfg_setInRange cfg s h
  exact ⟨hinv.2.1, hinv.2.2.1⟩

/-- Witness for C7 on a concrete reachable state: start from the initial
state under the `{20, 30, 3}` configuration, then tick once. -/
theorem reachable_setNo_in_range_witness :
    1 ≤ (tickOp (start { workSec := 20, restSec := 30, sets := 3 } init)).setNo ∧
      (tickOp (start { workSec := 20, restSec := 30, sets := 3 } init)).setNo ≤
        ({ workSec := 20, restSec := 30, sets := 3 } : Config).sets :=
  reachable_setNo_in_range _ _
    (Reachable.tick _ _ (Reachable.start _ _
      (Reachable.init _ ⟨by norm_num, by norm_num, by norm_num⟩)))

end PlankTrainer
